import Mathlib

/-!
Verification of the TBN case-management core.

This file gives a shallow embedding of the message-to-case processing core
of the repository (src/app/db.py, src/app/utils.py, src/app/email_listener.py,
src/app/slack_listener.py, src/app/scheduler.py) and proves properties of it.

Modelling conventions:
- timestamps are `Int` seconds (Python `datetime` instants; differences in
  seconds via `total_seconds()`); every call of `datetime.utcnow()` inside one
  operation is passed in as an explicit `now : Int` argument;
- the SQLAlchemy session is modelled as an explicit `DB` value (lists of rows
  in insertion order); ORM in-place mutation of a row becomes replacing the
  row with the same `case_id`;
- Python default arguments are passed explicitly at every call site with the
  source's default values (48 hours, 3 follow-ups, 60 minutes);
- a Python exception that escapes a function is modelled as an explicit
  `raised` result value; exceptions caught by a `try/except` are modelled by
  the catching function inspecting that result.
-/

namespace TBN

/-- Message row (class `Message` in src/app/db.py): sender, admin flag, body,
timestamp and source channel.  The autoincrement `id` column is not modelled;
list position plays its role (insertion order, which is also chronological
order within one case since timestamps are assigned at insertion). -/
structure Msg where
  sender : String
  is_admin : Bool
  body : String
  timestamp : Int
  source : String
deriving DecidableEq, Repr

/-- Case row (class `Case` in src/app/db.py), together with its `messages`
relationship, in insertion order. -/
structure Case where
  case_id : String
  customer_identifier : String
  status : String
  created_at : Int
  last_message_at : Int
  message_count : Nat
  escalated : Bool
  escalated_at : Option Int
  last_escalation_alert : Option Int
  closed_at : Option Int
  messages : List Msg
deriving DecidableEq, Repr

/-- ProcessedMessage row (class `ProcessedMessage` in src/app/db.py): the
dedup-ledger entry keyed by the composite (message_id, source). -/
structure ProcessedMsg where
  message_id : String
  source : String
  processed_at : Int
  case_id : Option String
deriving DecidableEq, Repr

/-- The persistent store: the `cases` table (with each case's messages) and
the `processed_messages` table, rows in insertion order. -/
structure DB where
  cases : List Case
  processed : List ProcessedMsg
deriving DecidableEq, Repr

/-- First list is a leading segment of the second (character-wise). -/
def leadEq : List Char → List Char → Bool
  | [], _ => true
  | _ :: _, [] => false
  | a :: as, b :: bs => a == b && leadEq as bs

/-- Second list occurs contiguously inside the first. -/
def containsSub : List Char → List Char → Bool
  | [], need => need.isEmpty
  | h :: t, need => if leadEq need (h :: t) then true else containsSub t need

/-- Substring test, Python's `needle in haystack` on strings. -/
def strContains (hay need : String) : Bool :=
  containsSub hay.toList need.toList

/-- Python's str.lower(), character-wise (ASCII case folding, which is all the
configured keywords, phrases and identifiers exercise). -/
def pyLower (s : String) : String :=
  ⟨s.data.map Char.toLower⟩

/-- detect_urgent_keywords from src/app/utils.py: the lowercased body contains
one of the fixed keywords as a substring. -/
def detect_urgent_keywords (message_body : String) : Bool :=
  ["urgent", "immediately", "asap", "emergency", "critical"].any
    (fun keyword => strContains (pyLower message_body) keyword)

/-- is_admin_message from src/app/utils.py: case-insensitive membership of
the sender in the admin identifier list. -/
def is_admin_message (sender : String) (admin_identifiers : List String) : Bool :=
  (admin_identifiers.map pyLower).contains (pyLower sender)

/-- detect_closure_phrase from src/app/utils.py.  The `re.search` patterns
only use literal characters plus an escaped dot, so each is a plain substring
test against the lowercased body. -/
def detect_closure_phrase (message_body : String) : Bool :=
  ["i\x27m closing this case.",
   "i am closing this case.",
   "closing this case.",
   "case closed.",
   "i\x27ll close this case."].any
    (fun pat => strContains (pyLower message_body) pat)

/-- check_time_escalation from src/app/utils.py: a non-open case never
escalates; otherwise compare `last_message_at < utcnow() - escalation_hours`
(note the strict inequality of the source). -/
def check_time_escalation (now : Int) (c : Case) (escalation_hours : Int) : Bool :=
  if c.status != "open" then false
  else decide (c.last_message_at < now - escalation_hours * 3600)

/-- Loop body of check_followup_escalation (src/app/utils.py lines 142-151):
scan the window newest-first, increment the counter on a non-admin message,
reset it to zero on an admin message, and return true as soon as the counter
reaches `maxF`. -/
def followup_loop : List Msg → Nat → Nat → Bool
  | [], _, _ => false
  | m :: rest, count, maxF =>
    let count' := if m.is_admin then 0 else count + 1
    if maxF ≤ count' then true else followup_loop rest count' maxF

/-- check_followup_escalation from src/app/utils.py: on an open case, take the
last `max_followups + 1` messages (Python slice `[-max_followups-1:]`), give up
if fewer than `max_followups` remain, then run the reset-and-count loop over
the window newest-first. -/
def check_followup_escalation (c : Case) (max_followups : Nat) : Bool :=
  if c.status != "open" then false
  else
    let recent := c.messages.drop (c.messages.length - (max_followups + 1))
    if recent.length < max_followups then false
    else followup_loop recent.reverse 0 max_followups

/-- get_escalation_reasons from src/app/utils.py: the three rules evaluated
in order and combined, with the source's exact reason strings and its default
thresholds (48 hours, 3 follow-ups). -/
def get_escalation_reasons (now : Int) (c : Case) (message_body : String) : List String :=
  (if detect_urgent_keywords message_body then ["Urgent keywords detected in message"] else [])
    ++ (if check_time_escalation now c 48 then ["Inactive for more than 48 hours"] else [])
    ++ (if check_followup_escalation c 3 then ["More than 3 follow-ups without admin reply"] else [])

/-- A freshly inserted Case row as built by get_or_create_case in
src/app/db.py: only case_id, customer_identifier and status are passed;
the column defaults fill in created_at/last_message_at = now,
message_count = 1, escalated = false, the nullable timestamps = NULL and an
empty messages relationship. -/
def newCase (fid cust : String) (now : Int) : Case :=
  { case_id := fid
    customer_identifier := cust
    status := "open"
    created_at := now
    last_message_at := now
    message_count := 1
    escalated := false
    escalated_at := none
    last_escalation_alert := none
    closed_at := none
    messages := [] }

/-- add_message_to_case from src/app/db.py: append the new message row,
increment message_count, set last_message_at to now. -/
def add_message_to_case (now : Int) (c : Case) (sender body source : String)
    (is_admin : Bool) : Case :=
  let m : Msg :=
    { sender := sender, is_admin := is_admin, body := body
      timestamp := now, source := source }
  { c with
    messages := c.messages ++ [m]
    message_count := c.message_count + 1
    last_message_at := now }

/-- close_case from src/app/db.py: unconditionally set status to closed and
closed_at to now (the source has no already-closed guard). -/
def close_case (now : Int) (c : Case) : Case :=
  { c with status := "closed", closed_at := some now }

/-- escalate_case from src/app/db.py: set escalated, and set escalated_at only
when it is not already set. -/
def escalate_case (now : Int) (c : Case) : Case :=
  { c with
    escalated := true
    escalated_at := if c.escalated_at = none then some now else c.escalated_at }

/-- should_send_escalation_alert from src/app/db.py: true when no alert was
ever sent, or when at least alert_interval_minutes have passed since the
last one. -/
def should_send_escalation_alert (now : Int) (c : Case)
    (alert_interval_minutes : Int) : Bool :=
  match c.last_escalation_alert with
  | none => true
  | some t => decide (alert_interval_minutes * 60 ≤ now - t)

/-- update_last_escalation_alert from src/app/db.py. -/
def update_last_escalation_alert (now : Int) (c : Case) : Case :=
  { c with last_escalation_alert := some now }

/-- The open-case lookup used by get_or_create_case and by both listeners:
`query(Case).filter(customer_identifier == cust, status == "open").first()`. -/
def find_open_case (db : DB) (cust : String) : Option Case :=
  db.cases.find? (fun c => c.customer_identifier == cust && c.status == "open")

/-- get_or_create_case from src/app/db.py: return the existing open case for
the customer if there is one, otherwise insert a fresh row.  The randomly
generated case id (generate_case_id) is passed in as `fid`. -/
def get_or_create_case (db : DB) (cust fid : String) (now : Int) : Case × DB :=
  match find_open_case db cust with
  | some c => (c, db)
  | none =>
    let c := newCase fid cust now
    (c, { db with cases := db.cases ++ [c] })

/-- Commit an in-place ORM mutation of one case row: every row whose case_id
matches is replaced by its updated value. -/
def updateCase (db : DB) (cid : String) (f : Case → Case) : DB :=
  { db with cases := db.cases.map (fun c => if c.case_id == cid then f c else c) }

/-- add_message_to_case acting on the store. -/
def db_add_message (db : DB) (cid : String) (now : Int)
    (sender body source : String) (is_admin : Bool) : DB :=
  updateCase db cid (fun c => add_message_to_case now c sender body source is_admin)

/-- close_case acting on the store. -/
def db_close_case (db : DB) (cid : String) (now : Int) : DB :=
  updateCase db cid (close_case now)

/-- escalate_case acting on the store. -/
def db_escalate_case (db : DB) (cid : String) (now : Int) : DB :=
  updateCase db cid (escalate_case now)

/-- is_message_processed from src/app/db.py: the composite pair
(message_id, source) is already in the ledger. -/
def is_message_processed (db : DB) (mid src : String) : Bool :=
  db.processed.any (fun p => p.message_id == mid && p.source == src)

/-- Result of a ledger-record attempt: either the committed store, or an
exception escaping to the caller together with the store as the rollback
left it. -/
inductive RecordResult where
  | ok (db : DB)
  | raised (err : String) (db : DB)
deriving DecidableEq, Repr

/-- record_processed_message from src/app/db.py.  The insert commits unless
the composite (message_id, source) uniqueness constraint of the migrated
schema (uq_processed_message_id_source) is violated.  On violation the
except-branch rolls the session back and then evaluates `logger.warning`,
but src/app/db.py never defines or imports `logger`, so the branch raises
`NameError: name 'logger' is not defined` to the caller after the rollback. -/
def record_processed_message (db : DB) (mid src : String) (cid : Option String)
    (now : Int) : RecordResult :=
  if is_message_processed db mid src then
    RecordResult.raised "NameError: name logger is not defined" db
  else
    RecordResult.ok
      { db with
        processed := db.processed ++
          [{ message_id := mid, source := src, processed_at := now, case_id := cid }] }

/-- The closure-target query of both admin paths:
`query(Case).filter(status == "open").order_by(last_message_at.desc()).first()`.
Ties on last_message_at (for which SQL fixes no order) resolve to the earlier
row. -/
def most_recent_open_case (db : DB) : Option Case :=
  db.cases.foldl
    (fun acc c =>
      if c.status == "open" then
        match acc with
        | none => some c
        | some b => if b.last_message_at < c.last_message_at then some c else some b
      else acc)
    none

/-- Outcome of one inbound-event handler: the success flag returned to the
transport, the resulting store, and the escalation alerts emitted on the way
(as pairs of case id and semicolon-joined reason text). -/
structure HandleResult where
  success : Bool
  db : DB
  alerts : List (String × String)
deriving DecidableEq, Repr

/-- _handle_customer_email from src/app/email_listener.py: get or create the
open case, collect the escalation reasons (before the new message is
appended), append the message, then escalate and emit a single combined
alert when reasons exist and the case is not yet escalated.  Always reports
success. -/
def handle_customer_email (db : DB) (now : Int) (sender body fid : String) :
    DB × List (String × String) :=
  let cdb := get_or_create_case db sender fid now
  let case0 := cdb.1
  let reasons := get_escalation_reasons now case0 body
  let db2 := db_add_message cdb.2 case0.case_id now sender body "email" false
  if !reasons.isEmpty && !case0.escalated then
    (db_escalate_case db2 case0.case_id now,
     [(case0.case_id, String.intercalate "; " reasons)])
  else
    (db2, [])

/-- _handle_admin_email from src/app/email_listener.py: on a closure phrase,
close the globally most recently active open case (failure when none exists);
any other admin mail is a successful no-op. -/
def handle_admin_email (db : DB) (now : Int) (body : String) : Bool × DB :=
  if detect_closure_phrase body then
    match most_recent_open_case db with
    | some c => (true, db_close_case db c.case_id now)
    | none => (false, db)
  else
    (true, db)

/-- Shared tail of both listeners after a successful inner handler: the commit
of the dedup row yields a success return; an exception escaping
record_processed_message is caught by the listener's surrounding except-branch,
which rolls back (a no-op, the case mutations are already committed) and
reports failure. -/
def finishRecord (r : RecordResult) (alerts : List (String × String)) : HandleResult :=
  match r with
  | RecordResult.ok db2 => ⟨true, db2, alerts⟩
  | RecordResult.raised _ dbr => ⟨false, dbr, alerts⟩

/-- _handle_email_message from src/app/email_listener.py: dispatch on the
admin flag, look up the open case id for the customer after a successful
customer path, and record the dedup entry only when the inner handler
succeeded. -/
def handle_email_message (db : DB) (now : Int) (sender body : String)
    (is_admin : Bool) (mid fid : String) : HandleResult :=
  if is_admin then
    let r := handle_admin_email db now body
    if r.1 then finishRecord (record_processed_message r.2 mid "email" none now) []
    else ⟨false, r.2, []⟩
  else
    let r := handle_customer_email db now sender body fid
    let cid := (find_open_case r.1 sender).map Case.case_id
    finishRecord (record_processed_message r.1 mid "email" cid now) r.2

/-- _process_email from src/app/email_listener.py, after header extraction:
skip the event when its Message-ID is already in the ledger, otherwise run
_handle_email_message.  A skipped event leaves the store untouched and is
reported as not processed. -/
def process_email (db : DB) (now : Int) (sender body : String)
    (is_admin : Bool) (mid fid : String) : HandleResult :=
  if is_message_processed db mid "email" then ⟨false, db, []⟩
  else handle_email_message db now sender body is_admin mid fid

/-- process_customer_message_logic from src/app/slack_listener.py: same shape
as the email customer path with source tag "slack" (reasons collected before
the append, single combined alert, always succeeds). -/
def process_customer_message_logic (db : DB) (now : Int) (user body fid : String) :
    DB × List (String × String) :=
  let cdb := get_or_create_case db user fid now
  let case0 := cdb.1
  let reasons := get_escalation_reasons now case0 body
  let db2 := db_add_message cdb.2 case0.case_id now user body "slack" false
  if !reasons.isEmpty && !case0.escalated then
    (db_escalate_case db2 case0.case_id now,
     [(case0.case_id, String.intercalate "; " reasons)])
  else
    (db2, [])

/-- process_admin_message from src/app/slack_listener.py: identical closure
policy to the email admin path. -/
def process_admin_message (db : DB) (now : Int) (body : String) : Bool × DB :=
  if detect_closure_phrase body then
    match most_recent_open_case db with
    | some c => (true, db_close_case db c.case_id now)
    | none => (false, db)
  else
    (true, db)

/-- process_customer_message from src/app/slack_listener.py: classify the
sender against the configured admin identifiers, run the admin or customer
path, look up the case id on customer success, and record the dedup entry
only on success; an exception out of record_processed_message is caught and
turned into a failure return. -/
def process_customer_message (db : DB) (now : Int) (user body : String)
    (admins : List String) (eid fid : String) : HandleResult :=
  if is_admin_message user admins then
    let r := process_admin_message db now body
    if r.1 then finishRecord (record_processed_message r.2 eid "slack" none now) []
    else ⟨false, r.2, []⟩
  else
    let r := process_customer_message_logic db now user body fid
    let cid := (find_open_case r.1 user).map Case.case_id
    finishRecord (record_processed_message r.1 eid "slack" cid now) r.2

/-- process_slack_event from src/app/slack_listener.py, after payload
extraction and bot filtering: skip the event when its event_id is already in
the ledger, otherwise process the message. -/
def process_slack_event (db : DB) (now : Int) (user body : String)
    (admins : List String) (eid fid : String) : HandleResult :=
  if is_message_processed db eid "slack" then ⟨false, db, []⟩
  else process_customer_message db now user body admins eid fid

/-- Reasons gathered by the Sweeper for one case (_check_escalations in
src/app/scheduler.py): only the time rule and the follow-up rule, with the
source's literal reason strings and defaults. -/
def sweepReasons (now : Int) (c : Case) : List String :=
  (if check_time_escalation now c 48 then ["Inactive for more than 48 hours"] else [])
    ++ (if check_followup_escalation c 3 then ["More than 3 follow-ups without admin reply"] else [])

/-- One case's treatment inside a sweep cycle (_check_escalations in
src/app/scheduler.py): non-open cases are not loaded, already-escalated cases
are skipped, otherwise gather reasons, escalate when any apply, and emit one
combined alert gated by should_send_escalation_alert (default 60 minutes),
stamping last_escalation_alert afterwards. -/
def sweepCase (now : Int) (c : Case) : Case × List (String × String) :=
  if c.status != "open" then (c, [])
  else if c.escalated then (c, [])
  else
    let reasons := sweepReasons now c
    if reasons.isEmpty then (c, [])
    else
      let c1 := escalate_case now c
      if should_send_escalation_alert now c1 60 then
        (update_last_escalation_alert now c1,
         [(c.case_id, String.intercalate "; " reasons)])
      else
        (c1, [])

/-- A whole sweep cycle over the store: every case row is treated
independently; the cycle's alerts are those of all rows in row order. -/
def check_escalations (now : Int) (db : DB) : DB × List (String × String) :=
  ({ db with cases := db.cases.map (fun c => (sweepCase now c).1) },
   (db.cases.map (fun c => (sweepCase now c).2)).flatten)

/-- A sequence of sweep cycles at the given instants, accumulating the
emitted alerts. -/
def runSweeps : List Int → DB → DB × List (String × String)
  | [], db => (db, [])
  | t :: ts, db =>
    let step := check_escalations t db
    let rest := runSweeps ts step.1
    (rest.1, step.2 ++ rest.2)

/-- One case row followed through a sequence of sweep cycles, together with
the number of alerts it emitted. -/
def rowRun : List Int → Case → Case × Nat
  | [], c => (c, 0)
  | t :: ts, c =>
    let step := sweepCase t c
    let rest := rowRun ts step.1
    (rest.1, step.2.length + rest.2)

/-- Number of alerts in a batch that name the given case id. -/
def alertCount (alerts : List (String × String)) (cid : String) : Nat :=
  alerts.countP (fun a => a.1 == cid)

/-- At most one case with status open per customer identifier: the data-model
invariant of the spec, over the store. -/
def openInvariant (db : DB) : Prop :=
  ∀ cust : String,
    db.cases.countP (fun c => c.customer_identifier == cust && c.status == "open") ≤ 1

/-- Arguments of one append operation, for iterating add_message_to_case. -/
structure AppendArgs where
  now : Int
  sender : String
  body : String
  source : String
  is_admin : Bool
deriving DecidableEq, Repr

/-- Apply one append to a case. -/
def applyAppend (c : Case) (a : AppendArgs) : Case :=
  add_message_to_case a.now c a.sender a.body a.source a.is_admin

/-- A concrete customer (non-admin) message. -/
def custMsg (t : Int) (body : String) : Msg :=
  { sender := "alice@example.com", is_admin := false, body := body
    timestamp := t, source := "email" }

/-- A concrete admin message. -/
def admMsg (t : Int) : Msg :=
  { sender := "boss@example.com", is_admin := true, body := "on it"
    timestamp := t, source := "email" }

/-- A freshly created, never-touched case. -/
def caseFresh : Case := newCase "CASE_A" "alice@example.com" 0

/-- An open case whose chronological history is three customer messages
followed by an admin reply as the newest message. -/
def caseAdminLast : Case :=
  { newCase "CASE_B" "alice@example.com" 0 with
    messages := [custMsg 1 "q1", custMsg 2 "q2", custMsg 3 "q3", admMsg 4]
    message_count := 5
    last_message_at := 4 }

/-- A ledger already holding the pair ("m1", "email"). -/
def dbDup : DB :=
  { cases := []
    processed := [{ message_id := "m1", source := "email", processed_at := 0, case_id := none }] }

/-- An open, not escalated case with exactly two trailing customer messages. -/
def caseTwoFollowups : Case :=
  { newCase "CASE_C" "alice@example.com" 0 with
    messages := [custMsg 1 "q1", custMsg 2 "q2"]
    message_count := 3
    last_message_at := 2 }

/-- Store holding just caseTwoFollowups. -/
def dbTwoFollowups : DB := { cases := [caseTwoFollowups], processed := [] }

/-- An open, not escalated case with three trailing customer messages. -/
def caseThreeFollowups : Case :=
  { newCase "CASE_D" "alice@example.com" 0 with
    messages := [custMsg 1 "q1", custMsg 2 "q2", custMsg 3 "q3"]
    message_count := 4
    last_message_at := 3 }

/-- Store holding just caseThreeFollowups. -/
def dbThreeFollowups : DB := { cases := [caseThreeFollowups], processed := [] }

/-- An open case whose last message is exactly 48 hours old at instant
48 * 3600. -/
def caseBoundary : Case := newCase "CASE_E" "alice@example.com" 0

/-- The empty store. -/
def dbEmpty : DB := { cases := [], processed := [] }

/-- An already-escalated open case. -/
def caseEscalated : Case :=
  { newCase "CASE_H" "bob@example.com" 0 with
    escalated := true
    escalated_at := some 0 }

/-- Store holding just caseEscalated. -/
def dbEscalated : DB := { cases := [caseEscalated], processed := [] }

/-! Helper lemmas shared between the claim theorems. -/

theorem append_singleton_not_isEmpty {α : Type} (l : List α) (s : α) :
    (l ++ [s]).isEmpty = false := by
  cases l <;> rfl

theorem foldl_applyAppend_invariant (appends : List AppendArgs) :
    ∀ c : Case, c.message_count = c.messages.length + 1 →
      (appends.foldl applyAppend c).message_count
        = (appends.foldl applyAppend c).messages.length + 1 := by
  induction appends with
  | nil => intro c h; simpa using h
  | cons a t ih =>
    intro c h
    simp only [List.foldl_cons]
    refine ih _ ?_
    simp [applyAppend, add_message_to_case, h]

/-! Theorems settling the claims. -/

/-- C1: closing an already-closed case is not a no-op in this code: close_case
unconditionally overwrites closed_at, so a second call at instant 1 moves
closed_at from the first call's instant 0 to 1 and changes the case state. -/
theorem close_case_double_close_overwrites :
    (close_case 0 caseFresh).status = "closed" ∧
    (close_case 0 caseFresh).closed_at = some 0 ∧
    (close_case 1 (close_case 0 caseFresh)).closed_at = some 1 ∧
    close_case 1 (close_case 0 caseFresh) ≠ close_case 0 caseFresh := by
  refine ⟨rfl, rfl, rfl, ?_⟩
  decide

/-- C2: on an open case whose newest message is from an admin but whose three
preceding messages are all customer messages, check_followup_escalation with
threshold 3 returns true: the scan resets the counter at the newest admin
message but keeps counting the three older customer messages inside the
last-four window, contradicting the trailing-run reading under which the rule
can never fire when the newest message is an admin one. -/
theorem followup_rule_true_with_newest_admin :
    check_followup_escalation caseAdminLast 3 = true ∧
    caseAdminLast.status = "open" ∧
    caseAdminLast.messages.map Msg.is_admin = [false, false, false, true] := by
  decide

/-- C3: recording an already-recorded (message_id, source) pair leaves the
ledger unchanged (the rollback) but then raises NameError to the caller,
because the except-branch of record_processed_message uses a logger that
src/app/db.py never defines; it does not return normally. -/
theorem record_processed_message_duplicate_raises :
    record_processed_message dbDup "m1" "email" none 7 =
      RecordResult.raised "NameError: name logger is not defined" dbDup := by
  decide

/-- C5 (amended): the time-inactivity rule holds exactly when the case is open
and strictly more than 48 hours have passed since last_message_at; the exact
48-hour boundary does not escalate, and a non-open case never does. -/
theorem time_escalation_strict_characterization (now : Int) (c : Case) :
    check_time_escalation now c 48 = true ↔
      c.status = "open" ∧ 48 * 3600 < now - c.last_message_at := by
  unfold check_time_escalation
  by_cases h : c.status = "open"
  · simp [h]
    omega
  · simp [h, bne_iff_ne]

/-- C5 (counterexample): an open case whose last message is exactly 48 hours
old is not escalated by the time rule, refuting the inclusive-boundary
reading. -/
theorem time_escalation_boundary_cex :
    check_time_escalation (48 * 3600) caseBoundary 48 = false ∧
    caseBoundary.status = "open" ∧
    (48 * 3600 : Int) - caseBoundary.last_message_at = 48 * 3600 := by
  decide

/-- C10: a case created by get_or_create_case starts with message_count 1 and
no message rows, and after any sequence of add_message_to_case calls its
message_count exceeds its number of message rows by exactly one. -/
theorem message_count_off_by_one :
    (∀ fid cust : String, ∀ t0 : Int,
      (newCase fid cust t0).message_count = 1 ∧ (newCase fid cust t0).messages = []) ∧
    (∀ db : DB, ∀ cust fid : String, ∀ now : Int, find_open_case db cust = none →
      (get_or_create_case db cust fid now).1 = newCase fid cust now) ∧
    (∀ fid cust : String, ∀ t0 : Int, ∀ appends : List AppendArgs,
      (appends.foldl applyAppend (newCase fid cust t0)).message_count
        = (appends.foldl applyAppend (newCase fid cust t0)).messages.length + 1) := by
  refine ⟨fun fid cust t0 => ⟨rfl, rfl⟩, ?_, ?_⟩
  · intro db cust fid now h
    simp [get_or_create_case, h]
  · intro fid cust t0 appends
    exact foldl_applyAppend_invariant appends _ rfl

/-- C10 (witness): on the empty store the created case is the fresh row. -/
theorem message_count_off_by_one_witness :
    (get_or_create_case dbEmpty "alice@example.com" "CASE_W" 0).1
      = newCase "CASE_W" "alice@example.com" 0 :=
  message_count_off_by_one.2.1 dbEmpty "alice@example.com" "CASE_W" 0 (by decide)

theorem handle_customer_email_alerts (db : DB) (now : Int) (sender body fid : String) :
    (handle_customer_email db now sender body fid).2 =
      (if !(get_escalation_reasons now (get_or_create_case db sender fid now).1 body).isEmpty
          && !(get_or_create_case db sender fid now).1.escalated then
        [((get_or_create_case db sender fid now).1.case_id,
          String.intercalate "; " (get_escalation_reasons now (get_or_create_case db sender fid now).1 body))]
      else []) := by
  simp only [handle_customer_email]
  split <;> rfl

theorem process_customer_message_logic_alerts (db : DB) (now : Int) (user body fid : String) :
    (process_customer_message_logic db now user body fid).2 =
      (if !(get_escalation_reasons now (get_or_create_case db user fid now).1 body).isEmpty
          && !(get_or_create_case db user fid now).1.escalated then
        [((get_or_create_case db user fid now).1.case_id,
          String.intercalate "; " (get_escalation_reasons now (get_or_create_case db user fid now).1 body))]
      else []) := by
  simp only [process_customer_message_logic]
  split <;> rfl

/-- C4 (counterexample): a customer message arriving on an open,
not-escalated case whose last two history messages are consecutive customer
messages does not produce any escalation alert (in particular no follow-up
reason): the rules are evaluated before the new message is appended, so the
trailing customer run seen by the evaluator has length two, below the
threshold of three. -/
theorem customer_path_no_followup_with_two_trailing :
    (handle_customer_email dbTwoFollowups 100 "alice@example.com" "any update" "CASE_N").2 = [] ∧
    ((handle_customer_email dbTwoFollowups 100 "alice@example.com" "any update" "CASE_N").1.cases.map
        Case.escalated) = [false] ∧
    caseTwoFollowups.status = "open" ∧
    caseTwoFollowups.escalated = false ∧
    caseTwoFollowups.messages.map Msg.is_admin = [false, false] ∧
    find_open_case dbTwoFollowups "alice@example.com" = some caseTwoFollowups := by
  decide

theorem followup_reason_mem (now : Int) (c : Case) (body : String) :
    "More than 3 follow-ups without admin reply" ∈ get_escalation_reasons now c body ↔
      check_followup_escalation c 3 = true := by
  unfold get_escalation_reasons
  by_cases hu : detect_urgent_keywords body = true <;>
    by_cases ht : check_time_escalation now c 48 = true <;>
      by_cases hf : check_followup_escalation c 3 = true <;>
        simp [hu, ht, hf]

/-- C4 (amended): on the customer path (email and chat alike) the escalation
rules are evaluated against the case as it is before the incoming message is
appended (the new body still feeds the urgent-keyword rule); one combined
semicolon-joined alert is emitted exactly when those pre-append reasons are
non-empty and the case is not yet escalated.  The follow-up reason is among
the reasons computed for the event exactly when the pre-append history
already satisfies check_followup_escalation with threshold 3 (and such a
not-yet-escalated open case does get an alert); in particular a customer
message arriving on an Open case whose last two history messages are
consecutive customer messages does not produce the follow-up reason during
that event's processing. -/
theorem customer_path_reasons_before_append :
    (∀ db : DB, ∀ now : Int, ∀ sender body fid : String,
      (handle_customer_email db now sender body fid).2 =
        (if !(get_escalation_reasons now (get_or_create_case db sender fid now).1 body).isEmpty
            && !(get_or_create_case db sender fid now).1.escalated then
          [((get_or_create_case db sender fid now).1.case_id,
            String.intercalate "; " (get_escalation_reasons now (get_or_create_case db sender fid now).1 body))]
        else [])) ∧
    (∀ db : DB, ∀ now : Int, ∀ user body fid : String,
      (process_customer_message_logic db now user body fid).2 =
        (if !(get_escalation_reasons now (get_or_create_case db user fid now).1 body).isEmpty
            && !(get_or_create_case db user fid now).1.escalated then
          [((get_or_create_case db user fid now).1.case_id,
            String.intercalate "; " (get_escalation_reasons now (get_or_create_case db user fid now).1 body))]
        else [])) ∧
    (∀ now : Int, ∀ c : Case, ∀ body : String,
      "More than 3 follow-ups without admin reply" ∈ get_escalation_reasons now c body ↔
        check_followup_escalation c 3 = true) ∧
    (∀ db : DB, ∀ now : Int, ∀ sender body fid : String,
      (get_or_create_case db sender fid now).1.escalated = false →
      check_followup_escalation (get_or_create_case db sender fid now).1 3 = true →
      (handle_customer_email db now sender body fid).2 ≠ []) := by
  refine ⟨handle_customer_email_alerts, process_customer_message_logic_alerts,
    followup_reason_mem, ?_⟩
  intro db now sender body fid h1 h2
  rw [handle_customer_email_alerts]
  have hne : (get_escalation_reasons now (get_or_create_case db sender fid now).1 body).isEmpty
      = false := by
    simp only [get_escalation_reasons, h2, if_true]
    exact append_singleton_not_isEmpty _ _
  simp [hne, h1]

/-- C4 (witness): with three trailing customer messages already in history,
the arriving customer message does trigger an alert. -/
theorem customer_path_reasons_before_append_witness :
    (handle_customer_email dbThreeFollowups 50 "alice@example.com" "ping" "CASE_P").2 ≠ [] :=
  customer_path_reasons_before_append.2.2.2 dbThreeFollowups 50 "alice@example.com" "ping" "CASE_P"
    (by decide) (by decide)

theorem countP_map_eq {α : Type} (l : List α) (g : α → α) (p : α → Bool)
    (h : ∀ x, p (g x) = p x) : (l.map g).countP p = l.countP p := by
  induction l with
  | nil => rfl
  | cons a t ih => simp [List.countP_cons, h, ih]

theorem countP_map_le {α : Type} (l : List α) (g : α → α) (p : α → Bool)
    (h : ∀ x, p (g x) = true → p x = true) : (l.map g).countP p ≤ l.countP p := by
  induction l with
  | nil => simp
  | cons a t ih =>
    simp only [List.map_cons, List.countP_cons]
    refine Nat.add_le_add ih ?_
    rcases Bool.eq_false_or_eq_true (p (g a)) with hp | hp
    · rw [hp, h a hp]
    · rw [hp]
      simp

theorem openInvariant_get_or_create (db : DB) (cust fid : String) (now : Int)
    (h : openInvariant db) : openInvariant (get_or_create_case db cust fid now).2 := by
  unfold get_or_create_case
  cases hfind : find_open_case db cust with
  | some c => simpa using h
  | none =>
    intro cust'
    simp only [List.countP_append]
    unfold find_open_case at hfind
    by_cases hc : cust = cust'
    · subst hc
      have h0 : db.cases.countP
          (fun c => c.customer_identifier == cust && c.status == "open") = 0 :=
        List.countP_eq_zero.mpr (List.find?_eq_none.mp hfind)
      simp [newCase, h0]
    · have h1 : ((newCase fid cust now).customer_identifier == cust'
          && (newCase fid cust now).status == "open") = false := by
        simp [newCase, hc]
      simp only [List.countP_cons, List.countP_nil, h1]
      simpa using h cust'

theorem openInvariant_updateCase_eq (db : DB) (cid : String) (f : Case → Case)
    (hf : ∀ c : Case, (f c).customer_identifier = c.customer_identifier
      ∧ (f c).status = c.status)
    (h : openInvariant db) : openInvariant (updateCase db cid f) := by
  intro cust
  unfold updateCase
  rw [countP_map_eq]
  · exact h cust
  · intro x
    by_cases hx : (x.case_id == cid) = true
    · simp [hx, (hf x).1, (hf x).2]
    · simp [hx]

theorem openInvariant_db_close (db : DB) (cid : String) (now : Int)
    (h : openInvariant db) : openInvariant (db_close_case db cid now) := by
  intro cust
  unfold db_close_case updateCase
  refine le_trans (countP_map_le _ _ _ ?_) (h cust)
  intro x hx
  by_cases hc : (x.case_id == cid) = true
  · rw [if_pos hc] at hx
    exfalso
    simp [close_case] at hx
  · rwa [if_neg hc] at hx

/-- C7: the at-most-one-open-case-per-customer invariant is maintained:
get_or_create_case returns the existing open case untouched when the lookup
finds one and otherwise inserts exactly one new open case, preserving the
invariant; and appending a message, escalating, and closing all preserve the
invariant as well (none of them can make a second case open for the same
customer). -/
theorem at_most_one_open_case :
    (∀ db : DB, ∀ cust fid : String, ∀ now : Int,
      openInvariant db → openInvariant (get_or_create_case db cust fid now).2) ∧
    (∀ db : DB, ∀ cust fid : String, ∀ now : Int, ∀ c : Case,
      find_open_case db cust = some c → get_or_create_case db cust fid now = (c, db)) ∧
    (∀ db : DB, ∀ cid : String, ∀ now : Int, ∀ sender body source : String, ∀ isAdm : Bool,
      openInvariant db → openInvariant (db_add_message db cid now sender body source isAdm)) ∧
    (∀ db : DB, ∀ cid : String, ∀ now : Int,
      openInvariant db → openInvariant (db_escalate_case db cid now)) ∧
    (∀ db : DB, ∀ cid : String, ∀ now : Int,
      openInvariant db → openInvariant (db_close_case db cid now)) := by
  refine ⟨openInvariant_get_or_create, ?_, ?_, ?_, openInvariant_db_close⟩
  · intro db cust fid now c h
    simp [get_or_create_case, h]
  · intro db cid now sender body source isAdm h
    exact openInvariant_updateCase_eq db cid _
      (fun c => by simp [add_message_to_case]) h
  · intro db cid now h
    exact openInvariant_updateCase_eq db cid _
      (fun c => by simp [escalate_case]) h

/-- C7 (witness): concrete invariant preservation and concrete return of the
existing open case. -/
theorem at_most_one_open_case_witness :
    openInvariant (get_or_create_case dbEmpty "alice@example.com" "CASE_Q" 0).2 ∧
    get_or_create_case dbThreeFollowups "alice@example.com" "CASE_R" 7
      = (caseThreeFollowups, dbThreeFollowups) :=
  ⟨at_most_one_open_case.1 dbEmpty "alice@example.com" "CASE_Q" 0
      (fun cust => by simp [dbEmpty]),
   at_most_one_open_case.2.1 dbThreeFollowups "alice@example.com" "CASE_R" 7
      caseThreeFollowups (by decide)⟩

theorem record_ok_processed (db db2 : DB) (mid src : String) (cid : Option String)
    (now : Int) (h : record_processed_message db mid src cid now = RecordResult.ok db2) :
    is_message_processed db2 mid src = true := by
  unfold record_processed_message at h
  split at h
  · simp at h
  · cases h
    simp [is_message_processed, List.any_append]

theorem record_raised_db (db dbr : DB) (e mid src : String) (cid : Option String)
    (now : Int)
    (h : record_processed_message db mid src cid now = RecordResult.raised e dbr) :
    dbr = db := by
  unfold record_processed_message at h
  split at h
  · cases h
    rfl
  · simp at h

theorem finishRecord_success_processed (db : DB) (mid src : String) (cid : Option String)
    (now : Int) (al : List (String × String))
    (h : (finishRecord (record_processed_message db mid src cid now) al).success = true) :
    is_message_processed
      (finishRecord (record_processed_message db mid src cid now) al).db mid src = true := by
  rcases hr : record_processed_message db mid src cid now with db2 | ⟨e, dbr⟩
  · exact record_ok_processed db db2 mid src cid now hr
  · rw [hr] at h
    simp [finishRecord] at h

theorem finishRecord_fail_processed (db : DB) (mid src : String) (cid : Option String)
    (now : Int) (al : List (String × String))
    (h : (finishRecord (record_processed_message db mid src cid now) al).success = false) :
    (finishRecord (record_processed_message db mid src cid now) al).db.processed
      = db.processed := by
  rcases hr : record_processed_message db mid src cid now with db2 | ⟨e, dbr⟩
  · rw [hr] at h
    simp [finishRecord] at h
  · rw [record_raised_db db dbr e mid src cid now hr]
    exact rfl

theorem get_or_create_processed (db : DB) (cust fid : String) (now : Int) :
    (get_or_create_case db cust fid now).2.processed = db.processed := by
  unfold get_or_create_case
  split <;> rfl

theorem handle_customer_email_processed (db : DB) (now : Int) (sender body fid : String) :
    (handle_customer_email db now sender body fid).1.processed = db.processed := by
  simp only [handle_customer_email]
  split
  · exact get_or_create_processed db sender fid now
  · exact get_or_create_processed db sender fid now

theorem process_customer_message_logic_processed (db : DB) (now : Int)
    (user body fid : String) :
    (process_customer_message_logic db now user body fid).1.processed = db.processed := by
  simp only [process_customer_message_logic]
  split
  · exact get_or_create_processed db user fid now
  · exact get_or_create_processed db user fid now

theorem handle_admin_email_processed (db : DB) (now : Int) (body : String) :
    (handle_admin_email db now body).2.processed = db.processed := by
  unfold handle_admin_email
  split
  · split <;> rfl
  · rfl

theorem process_admin_message_processed (db : DB) (now : Int) (body : String) :
    (process_admin_message db now body).2.processed = db.processed := by
  unfold process_admin_message
  split
  · split <;> rfl
  · rfl

theorem handle_email_message_success_processed (db : DB) (now : Int)
    (sender body : String) (isAdm : Bool) (mid fid : String)
    (h : (handle_email_message db now sender body isAdm mid fid).success = true) :
    is_message_processed
      (handle_email_message db now sender body isAdm mid fid).db mid "email" = true := by
  unfold handle_email_message at h ⊢
  by_cases hA : isAdm = true
  · rw [if_pos hA] at h ⊢
    by_cases hs : (handle_admin_email db now body).1 = true
    · rw [if_pos hs] at h ⊢
      exact finishRecord_success_processed _ mid "email" none now [] h
    · rw [if_neg hs] at h
      simp at h
  · rw [if_neg hA] at h ⊢
    exact finishRecord_success_processed _ mid "email" _ now _ h

theorem process_customer_message_success_processed (db : DB) (now : Int)
    (user body : String) (admins : List String) (eid fid : String)
    (h : (process_customer_message db now user body admins eid fid).success = true) :
    is_message_processed
      (process_customer_message db now user body admins eid fid).db eid "slack" = true := by
  unfold process_customer_message at h ⊢
  by_cases hA : is_admin_message user admins = true
  · rw [if_pos hA] at h ⊢
    by_cases hs : (process_admin_message db now body).1 = true
    · rw [if_pos hs] at h ⊢
      exact finishRecord_success_processed _ eid "slack" none now [] h
    · rw [if_neg hs] at h
      simp at h
  · rw [if_neg hA] at h ⊢
    exact finishRecord_success_processed _ eid "slack" _ now _ h

theorem process_email_not_processed (db : DB) (now : Int) (sender body : String)
    (isAdm : Bool) (mid fid : String)
    (hd : is_message_processed db mid "email" = false) :
    process_email db now sender body isAdm mid fid
      = handle_email_message db now sender body isAdm mid fid := by
  unfold process_email
  rw [hd]
  simp

theorem process_email_skip (db : DB) (now : Int) (sender body : String)
    (isAdm : Bool) (mid fid : String)
    (hp : is_message_processed db mid "email" = true) :
    process_email db now sender body isAdm mid fid = ⟨false, db, []⟩ := by
  unfold process_email
  rw [hp]
  simp

theorem process_slack_event_not_processed (db : DB) (now : Int) (user body : String)
    (admins : List String) (eid fid : String)
    (hd : is_message_processed db eid "slack" = false) :
    process_slack_event db now user body admins eid fid
      = process_customer_message db now user body admins eid fid := by
  unfold process_slack_event
  rw [hd]
  simp

theorem process_slack_event_skip (db : DB) (now : Int) (user body : String)
    (admins : List String) (eid fid : String)
    (hp : is_message_processed db eid "slack" = true) :
    process_slack_event db now user body admins eid fid = ⟨false, db, []⟩ := by
  unfold process_slack_event
  rw [hp]
  simp

/-- C6: reprocessing the same inbound event (same external id and source)
after a first successful processing is a no-op, on both channels: the second
call hits the dedup check, leaves the store exactly as the first call left it
(so in particular no second Message row is created), and reports the event as
skipped. -/
theorem duplicate_event_second_call_noop :
    (∀ db : DB, ∀ now now2 : Int, ∀ sender body : String, ∀ isAdm : Bool, ∀ mid fid fid2 : String,
      is_message_processed db mid "email" = false →
      (process_email db now sender body isAdm mid fid).success = true →
      process_email (process_email db now sender body isAdm mid fid).db now2 sender body isAdm mid fid2
        = ⟨false, (process_email db now sender body isAdm mid fid).db, []⟩) ∧
    (∀ db : DB, ∀ now now2 : Int, ∀ user body : String, ∀ admins : List String,
        ∀ eid fid fid2 : String,
      is_message_processed db eid "slack" = false →
      (process_slack_event db now user body admins eid fid).success = true →
      process_slack_event (process_slack_event db now user body admins eid fid).db now2 user body admins eid fid2
        = ⟨false, (process_slack_event db now user body admins eid fid).db, []⟩) := by
  constructor
  · intro db now now2 sender body isAdm mid fid fid2 hd hs
    rw [process_email_not_processed db now sender body isAdm mid fid hd] at hs ⊢
    exact process_email_skip _ now2 sender body isAdm mid fid2
      (handle_email_message_success_processed db now sender body isAdm mid fid hs)
  · intro db now now2 user body admins eid fid fid2 hd hs
    rw [process_slack_event_not_processed db now user body admins eid fid hd] at hs ⊢
    exact process_slack_event_skip _ now2 user body admins eid fid2
      (process_customer_message_success_processed db now user body admins eid fid hs)

/-- C6 (witness): a concrete first processing on each channel succeeds and the
second delivery of the same event id is a no-op on the resulting store. -/
theorem duplicate_event_second_call_noop_witness :
    (process_email (process_email dbEmpty 5 "alice@example.com" "hello there" false "m7" "CASE_S").db
        9 "alice@example.com" "hello there" false "m7" "CASE_T"
      = ⟨false, (process_email dbEmpty 5 "alice@example.com" "hello there" false "m7" "CASE_S").db, []⟩) ∧
    (process_slack_event
        (process_slack_event dbEmpty 5 "U123" "hi team" ["UBOSS"] "Ev1" "CASE_U").db
        9 "U123" "hi team" ["UBOSS"] "Ev1" "CASE_V"
      = ⟨false, (process_slack_event dbEmpty 5 "U123" "hi team" ["UBOSS"] "Ev1" "CASE_U").db, []⟩) :=
  ⟨duplicate_event_second_call_noop.1 dbEmpty 5 9 "alice@example.com" "hello there" false
      "m7" "CASE_S" "CASE_T" (by decide) (by decide),
   duplicate_event_second_call_noop.2 dbEmpty 5 9 "U123" "hi team" ["UBOSS"] "Ev1"
      "CASE_U" "CASE_V" (by decide) (by decide)⟩

/-- C8: the dedup entry is written only after the case-mutation steps of the
event completed successfully: whenever a listener reports failure for an
inbound event, the processed-messages ledger is exactly what it was before
the event, so a redelivery will re-attempt full processing. -/
theorem record_only_after_success :
    (∀ db : DB, ∀ now : Int, ∀ sender body : String, ∀ isAdm : Bool, ∀ mid fid : String,
      (handle_email_message db now sender body isAdm mid fid).success = false →
      (handle_email_message db now sender body isAdm mid fid).db.processed = db.processed) ∧
    (∀ db : DB, ∀ now : Int, ∀ user body : String, ∀ admins : List String, ∀ eid fid : String,
      (process_customer_message db now user body admins eid fid).success = false →
      (process_customer_message db now user body admins eid fid).db.processed = db.processed) := by
  constructor
  · intro db now sender body isAdm mid fid h
    unfold handle_email_message at h ⊢
    by_cases hA : isAdm = true
    · rw [if_pos hA] at h ⊢
      by_cases hs : (handle_admin_email db now body).1 = true
      · rw [if_pos hs] at h ⊢
        rw [finishRecord_fail_processed _ mid "email" none now [] h]
        exact handle_admin_email_processed db now body
      · rw [if_neg hs]
        exact handle_admin_email_processed db now body
    · rw [if_neg hA] at h ⊢
      rw [finishRecord_fail_processed _ mid "email" _ now _ h]
      exact handle_customer_email_processed db now sender body fid
  · intro db now user body admins eid fid h
    unfold process_customer_message at h ⊢
    by_cases hA : is_admin_message user admins = true
    · rw [if_pos hA] at h ⊢
      by_cases hs : (process_admin_message db now body).1 = true
      · rw [if_pos hs] at h ⊢
        rw [finishRecord_fail_processed _ eid "slack" none now [] h]
        exact process_admin_message_processed db now body
      · rw [if_neg hs]
        exact process_admin_message_processed db now body
    · rw [if_neg hA] at h ⊢
      rw [finishRecord_fail_processed _ eid "slack" _ now _ h]
      exact process_customer_message_logic_processed db now user body fid

/-- C8 (witness): an admin closure command with no open case fails on both
channels and writes nothing to the ledger. -/
theorem record_only_after_success_witness :
    (handle_email_message dbEmpty 5 "boss@example.com" "case closed." true "m8" "CASE_X").db.processed
      = dbEmpty.processed ∧
    (process_customer_message dbEmpty 5 "UBOSS" "case closed." ["UBOSS"] "Ev2" "CASE_Y").db.processed
      = dbEmpty.processed :=
  ⟨record_only_after_success.1 dbEmpty 5 "boss@example.com" "case closed." true "m8" "CASE_X"
      (by decide),
   record_only_after_success.2 dbEmpty 5 "UBOSS" "case closed." ["UBOSS"] "Ev2" "CASE_Y"
      (by decide)⟩

theorem sum_map_zero {α : Type} (l : List α) (f : α → Nat) (h : ∀ x ∈ l, f x = 0) :
    (l.map f).sum = 0 := by
  induction l with
  | nil => rfl
  | cons a t ih =>
    have h0 := h a (by simp)
    have ht := ih (fun x hx => h x (by simp [hx]))
    simp [h0, ht]

theorem sum_map_add {α : Type} (l : List α) (f g : α → Nat) :
    (l.map (fun x => f x + g x)).sum = (l.map f).sum + (l.map g).sum := by
  induction l with
  | nil => rfl
  | cons a t ih =>
    simp only [List.map_cons, List.sum_cons, ih]
    omega

theorem countP_flatten {α : Type} (p : α → Bool) (L : List (List α)) :
    L.flatten.countP p = (L.map (fun l => l.countP p)).sum := by
  induction L with
  | nil => rfl
  | cons l L ih => simp [List.countP_append, ih]

theorem sweepCase_escalated (now : Int) (c : Case) (h : c.escalated = true) :
    sweepCase now c = (c, []) := by
  simp [sweepCase, h]

theorem sweepCase_alerts_len (now : Int) (c : Case) :
    (sweepCase now c).2.length ≤ 1 := by
  simp only [sweepCase]
  split
  · simp
  · split
    · simp
    · split
      · simp
      · split <;> simp

theorem sweepCase_cases (now : Int) (c : Case) :
    (sweepCase now c).2 = [] ∨ (sweepCase now c).1.escalated = true := by
  simp only [sweepCase]
  split
  · left; rfl
  · split
    · left; rfl
    · split
      · left; rfl
      · split
        · right
          simp [update_last_escalation_alert, escalate_case]
        · right
          simp [escalate_case]

theorem sweepCase_case_id (now : Int) (c : Case) :
    (sweepCase now c).1.case_id = c.case_id := by
  simp only [sweepCase]
  split
  · rfl
  · split
    · rfl
    · split
      · rfl
      · split
        · simp [update_last_escalation_alert, escalate_case]
        · simp [escalate_case]

theorem sweepCase_alert_countP (now : Int) (c : Case) (cid : String) :
    (sweepCase now c).2.countP (fun a => a.1 == cid)
      = if c.case_id == cid then (sweepCase now c).2.length else 0 := by
  simp only [sweepCase]
  split
  · simp
  · split
    · simp
    · split
      · simp
      · split
        · by_cases hc : (c.case_id == cid) = true
          · rw [if_pos hc]
            simp [List.countP_cons, hc]
          · have hcf : (c.case_id == cid) = false := by simpa using hc
            rw [if_neg hc]
            simp [List.countP_cons, hcf]
        · simp

theorem rowRun_escalated (ts : List Int) (c : Case) (h : c.escalated = true) :
    rowRun ts c = (c, 0) := by
  induction ts with
  | nil => rfl
  | cons t ts ih => simp [rowRun, sweepCase_escalated t c h, ih]

theorem rowRun_le_one (ts : List Int) : ∀ c : Case, (rowRun ts c).2 ≤ 1 := by
  induction ts with
  | nil =>
    intro c
    simp [rowRun]
  | cons t ts ih =>
    intro c
    simp only [rowRun]
    rcases sweepCase_cases t c with h | h
    · rw [h]
      simpa using ih (sweepCase t c).1
    · rw [rowRun_escalated ts _ h]
      have := sweepCase_alerts_len t c
      simpa using this

theorem runSweeps_alertCount (ts : List Int) : ∀ db : DB, ∀ cid : String,
    alertCount (runSweeps ts db).2 cid
      = (db.cases.map (fun c => if c.case_id == cid then (rowRun ts c).2 else 0)).sum := by
  induction ts with
  | nil =>
    intro db cid
    simp only [runSweeps, alertCount, List.countP_nil]
    exact (sum_map_zero _ _ (fun c _ => by simp [rowRun])).symm
  | cons t ts ih =>
    intro db cid
    simp only [runSweeps, alertCount] at ih ⊢
    rw [List.countP_append, ih]
    have h1 : (check_escalations t db).2 = (db.cases.map (fun c => (sweepCase t c).2)).flatten := rfl
    have h2 : (check_escalations t db).1.cases = db.cases.map (fun c => (sweepCase t c).1) := rfl
    rw [h1, h2, countP_flatten, List.map_map, List.map_map, ← sum_map_add]
    congr 1
    congr 1
    funext c
    simp only [Function.comp_apply]
    rw [sweepCase_alert_countP, sweepCase_case_id]
    by_cases hc : (c.case_id == cid) = true <;> simp [hc, rowRun]

theorem sum_if_rowRun_le_one (ts : List Int) (cid : String) :
    ∀ l : List Case, (l.map Case.case_id).Nodup →
      (l.map (fun c => if c.case_id == cid then (rowRun ts c).2 else 0)).sum ≤ 1 := by
  intro l
  induction l with
  | nil =>
    intro _
    simp
  | cons a t ih =>
    intro hnd
    simp only [List.map_cons, List.nodup_cons] at hnd
    obtain ⟨ha, ht⟩ := hnd
    simp only [List.map_cons, List.sum_cons]
    by_cases hc : (a.case_id == cid) = true
    · rw [if_pos hc]
      have hacid : a.case_id = cid := by simpa using hc
      have hz : (t.map (fun c => if c.case_id == cid then (rowRun ts c).2 else 0)).sum = 0 := by
        refine sum_map_zero _ _ (fun x hx => ?_)
        have hne : x.case_id ≠ cid := by
          intro he
          refine ha ?_
          rw [hacid, ← he]
          exact List.mem_map_of_mem Case.case_id hx
        simp [hne]
      rw [hz]
      have := rowRun_le_one ts a
      omega
    · rw [if_neg hc]
      have := ih ht
      omega

/-- C9: the Sweeper never alerts a case whose escalated flag is already set
when the cycle looks at it (such a case is skipped untouched), and over any
sequence of sweep cycles a store with distinct case ids emits at most one
escalation alert per case id, however much time passes. -/
theorem sweeper_alerts_at_most_once :
    (∀ now : Int, ∀ c : Case, c.escalated = true → sweepCase now c = (c, [])) ∧
    (∀ ts : List Int, ∀ db : DB, ∀ cid : String,
      (db.cases.map Case.case_id).Nodup →
      alertCount (runSweeps ts db).2 cid ≤ 1) := by
  refine ⟨sweepCase_escalated, ?_⟩
  intro ts db cid hnd
  rw [runSweeps_alertCount]
  exact sum_if_rowRun_le_one ts cid db.cases hnd

/-- C9 (witness): an already-escalated case is skipped by a cycle, and a
two-cycle run over a store (second cycle far in the future) emits at most one
alert for the case. -/
theorem sweeper_alerts_at_most_once_witness :
    sweepCase 999999 caseEscalated = (caseEscalated, []) ∧
    alertCount (runSweeps [100, 200000000] dbEscalated).2 "CASE_H" ≤ 1 :=
  ⟨sweeper_alerts_at_most_once.1 999999 caseEscalated (by decide),
   sweeper_alerts_at_most_once.2 [100, 200000000] dbEscalated "CASE_H" (by decide)⟩

end TBN
